import Mathlib

/-
Verification of the fisheye-correction core (`DefisheyeAlgorithm`) of the
Fish-Eye-Lens-Correction repository.

The embedding below follows src/defishApp/integrated_defisheye_app.py
(the same class is duplicated in src/YOLO_treatment.py with identical
numerics).  Integer pixel geometry is modelled with Nat, the per-pixel
floating-point mapping with the reals.
-/

namespace Defisheye

/-- The four projection-model strings recognized by the dtype branch of
`DefisheyeAlgorithm._map` (integrated_defisheye_app.py lines 80-94). -/
def validDtype (dtype : String) : Bool :=
  dtype = "linear" || dtype = "equalarea" || dtype = "orthographic" ||
    dtype = "stereographic"

/-- The two output-format strings recognized by the format branch of
`DefisheyeAlgorithm.convert` (lines 109-112). -/
def validFormat (fmt : String) : Bool :=
  fmt = "circular" || fmt = "fullframe"

/-- Dimensions (height, width) after the optional border padding of
`__init__` (lines 47-49): `cv2.copyMakeBorder` adds `pad` pixels on all
four sides, and is only invoked when `pad > 0`. -/
def paddedDims (h w pad : Nat) : Nat × Nat :=
  if 0 < pad then (h + 2 * pad, w + 2 * pad) else (h, w)

/-- Length of the Python slice `[a:b]` of a sequence of length `n`
(for nonnegative bounds): `min b n - min a n`, never negative. -/
def sliceLen (a b n : Nat) : Nat :=
  min b n - min a n

/-- Crop bound `x0 = xcenter - dim // 2` of `__init__` (lines 53-57),
with `xcenter = width // 2` and `dim = min(width, height)`. -/
def cropX0 (h w : Nat) : Nat := w / 2 - min w h / 2

/-- Crop bound `xf = xcenter + dim // 2` (line 58). -/
def cropXf (h w : Nat) : Nat := w / 2 + min w h / 2

/-- Crop bound `y0 = ycenter - dim // 2` (lines 54-59). -/
def cropY0 (h w : Nat) : Nat := h / 2 - min w h / 2

/-- Crop bound `yf = ycenter + dim // 2` (line 60). -/
def cropYf (h w : Nat) : Nat := h / 2 + min w h / 2

/-- Dimensions (height, width) of the working image
`self._image = _image[y0:yf, x0:xf, :]` (lines 62-65). -/
def workingDims (h w : Nat) : Nat × Nat :=
  (sliceLen (cropY0 h w) (cropYf h w) h, sliceLen (cropX0 h w) (cropXf h w) w)

/-- Working-image dimensions (height, width) obtained from a source image
of height `h` and width `w` with padding `pad`: padding (lines 47-49)
followed by the centered crop (lines 51-65). -/
def workingOf (h w pad : Nat) : Nat × Nat :=
  workingDims (paddedDims h w pad).1 (paddedDims h w pad).2

/-- Default optical center `(self._width - 1) // 2` resolved in
`__init__` when the config does not supply one (lines 67-71):
Python integer floor division. -/
def defaultCenter (n : Nat) : Nat := (n - 1) / 2

/-- `numpy.hypot`: Euclidean norm of the offset vector (line 77). -/
noncomputable def hypot (x y : ℝ) : ℝ := Real.sqrt (x ^ 2 + y ^ 2)

/-- Mapped radius `rr` for one pixel: the dtype branch of `_map`
(lines 80-94).  A dtype outside the four recognized strings leaves the
Python local `rr` unbound, which raises at line 100; that failure is
modelled by `none`. -/
noncomputable def rrOf (dtype : String) (fov dim phi : ℝ) : Option ℝ :=
  if dtype = "linear" then
    some (dim * 180 / (fov * Real.pi) * phi)
  else if dtype = "equalarea" then
    some (dim / (2 * Real.sin (fov * Real.pi / 720)) * Real.sin (phi / 2))
  else if dtype = "orthographic" then
    some (dim / (2 * Real.sin (fov * Real.pi / 360)) * Real.sin phi)
  else if dtype = "stereographic" then
    some (dim / (2 * Real.tan (fov * Real.pi / 720)) * Real.tan (phi / 2))
  else
    none

/-- Per-pixel source coordinate of `DefisheyeAlgorithm._map`
(lines 73-106), for the output pixel `(i, j)`:
`xd = i - xcenter`, `yd = j - ycenter`, `rd = hypot(xd, yd)`,
`phiang = arctan(ofocinv * rd)`, then `rr` per dtype; pixels with
`rd != 0` get `(rr / rd) * xd + xcenter` (resp. `yd`, `ycenter`), the
pixel with `rd = 0` gets `(0, 0)` (lines 103-104). -/
noncomputable def mapPoint (dtype : String) (fov xc yc i j ofocinv dim : ℝ) :
    Option (ℝ × ℝ) :=
  let xd := i - xc
  let yd := j - yc
  let rd := hypot xd yd
  let phiang := Real.arctan (ofocinv * rd)
  Option.map
    (fun rr =>
      if rd = 0 then ((0 : ℝ), (0 : ℝ))
      else (rr / rd * xd + xc, rr / rd * yd + yc))
    (rrOf dtype fov dim phiang)

/-- Normalization diameter of `convert` (lines 109-115): the format
branch binds `dim` for the two recognized formats, then a non-`None`
`radius` rebinds `dim = 2 * radius` unconditionally.  When the format is
unrecognized and no radius is given, `dim` stays unbound and line 123
raises `NameError`; that is modelled by `none`. -/
noncomputable def convertDim (fmt : String) (radius : Option ℝ) (w h : ℝ) :
    Option ℝ :=
  let d0 : Option ℝ :=
    if fmt = "circular" then some (min w h)
    else if fmt = "fullframe" then some (Real.sqrt (w ^ 2 + h ^ 2))
    else none
  match radius with
  | some r => some (2 * r)
  | none => d0

/-- Output focal length `ofoc = dim / (2 * tan(pfov * pi / 360))`
(line 123). -/
noncomputable def ofocOf (dim pfov : ℝ) : ℝ :=
  dim / (2 * Real.tan (pfov * Real.pi / 360))

/-- Inverse output focal length `ofocinv = 1.0 / ofoc` (line 124). -/
noncomputable def ofocinvOf (dim pfov : ℝ) : ℝ := 1 / ofocOf dim pfov

/-- The keyword configuration accepted by `_start_att` (lines 27-38),
with the `vkwargs` defaults.  Every key, `angle` included, is stored on
the instance. -/
structure Config where
  fov : ℝ := 180
  pfov : ℝ := 120
  xcenter : Option ℝ := none
  ycenter : Option ℝ := none
  radius : Option ℝ := none
  pad : Nat := 0
  angle : ℝ := 0
  dtype : String := "equalarea"
  format : String := "fullframe"

/-- A single-channel pixel buffer: dimensions plus a total pixel
function (reads through `readPix` clamp to the stored rectangle). -/
structure Image where
  height : Nat
  width : Nat
  pixel : ℤ → ℤ → ℝ

/-- In-bounds read of an image, zero outside (the constant-black border
policy of `cv2.copyMakeBorder` / `cv2.remap` with `BORDER_CONSTANT`). -/
def readPix (img : Image) (y x : ℤ) : ℝ :=
  if 0 ≤ y ∧ y < (img.height : ℤ) ∧ 0 ≤ x ∧ x < (img.width : ℤ) then
    img.pixel y x
  else 0

/-- `cv2.copyMakeBorder(_image, pad, pad, pad, pad, BORDER_CONSTANT)`
(lines 47-49), applied only when `pad > 0`. -/
def padImage (img : Image) (pad : Nat) : Image :=
  if 0 < pad then
    { height := img.height + 2 * pad
      width := img.width + 2 * pad
      pixel := fun y x => readPix img (y - (pad : ℤ)) (x - (pad : ℤ)) }
  else img

/-- The centered square crop `_image[y0:yf, x0:xf, :]` (lines 51-62). -/
def cropSquare (img : Image) : Image :=
  { height := sliceLen (cropY0 img.height img.width)
      (cropYf img.height img.width) img.height
    width := sliceLen (cropX0 img.height img.width)
      (cropXf img.height img.width) img.width
    pixel := fun y x =>
      img.pixel (y + (cropY0 img.height img.width : ℤ))
        (x + (cropX0 img.height img.width : ℤ)) }

/-- The working image: optional padding followed by the square crop. -/
def workingImageOf (img : Image) (pad : Nat) : Image :=
  cropSquare (padImage img pad)

/-- The state a constructed `DefisheyeAlgorithm` carries into `convert`:
the working image, the resolved optical center (lines 67-71), and the
remaining configuration. -/
structure Projector where
  image : Image
  xcenter : ℝ
  ycenter : ℝ
  cfg : Config

/-- Construction steps after the input check: padding, cropping and
center resolution (lines 47-71). -/
noncomputable def mkProjector (img : Image) (cfg : Config) : Projector :=
  let wimg := workingImageOf img cfg.pad
  { image := wimg
    xcenter := cfg.xcenter.getD ((defaultCenter wimg.width : Nat) : ℝ)
    ycenter := cfg.ycenter.getD ((defaultCenter wimg.height : Nat) : ℝ)
    cfg := cfg }

/-- The `infile` argument of `__init__` (lines 40-45).  A filename
(`str`) is read with `cv2.imread`; the image that read yields is carried
by the constructor.  A pixel buffer (`ndarray`) is used directly.
Anything else hits the `else` branch. -/
inductive Infile where
  | pathStr (loaded : Image)
  | array (img : Image)
  | other

/-- `DefisheyeAlgorithm.__init__` (lines 27-71): reject inputs that are
neither a filename string nor an `ndarray` with
`Exception("Image format not recognized")` before any processing;
otherwise build the working image and resolve the centers. -/
noncomputable def constructP (inf : Infile) (cfg : Config) :
    Except String Projector :=
  match inf with
  | Infile.pathStr img => Except.ok (mkProjector img cfg)
  | Infile.array img => Except.ok (mkProjector img cfg)
  | Infile.other => Except.error "Image format not recognized"

/-- Bilinear interpolation of `cv2.remap(..., INTER_LINEAR)` at a
fractional source coordinate, with the constant zero border. -/
noncomputable def bilinear (img : Image) (xs ys : ℝ) : ℝ :=
  let x0 := ⌊xs⌋
  let y0 := ⌊ys⌋
  let fx := xs - (x0 : ℝ)
  let fy := ys - (y0 : ℝ)
  (1 - fx) * (1 - fy) * readPix img y0 x0 +
    fx * (1 - fy) * readPix img y0 (x0 + 1) +
    (1 - fx) * fy * readPix img (y0 + 1) x0 +
    fx * fy * readPix img (y0 + 1) (x0 + 1)

/-- `DefisheyeAlgorithm.convert` (lines 108-135): resolve `dim`
(an unrecognized format with no radius raises `NameError` on `dim` at
line 123), compute `ofocinv`, apply `_map` over the meshgrid of output
pixels (an unrecognized dtype raises `NameError` on `rr` at line 100),
and remap the working image.  The two `NameError` sites are surfaced
here as the errors of the whole call, since the vectorized `_map`
evaluates once for the whole grid. -/
noncomputable def convertP (p : Projector) : Except String Image :=
  match convertDim p.cfg.format p.cfg.radius (p.image.width : ℝ)
      (p.image.height : ℝ) with
  | none => Except.error "name dim is not defined"
  | some dim =>
      if validDtype p.cfg.dtype then
        Except.ok
          { height := p.image.height
            width := p.image.width
            pixel := fun y x =>
              match mapPoint p.cfg.dtype p.cfg.fov p.xcenter p.ycenter
                  (x : ℝ) (y : ℝ) (ofocinvOf dim p.cfg.pfov) dim with
              | some xys => bilinear p.image xys.1 xys.2
              | none => 0 }
      else Except.error "name rr is not defined"

/-- The full pipeline used by every caller: construct, then convert. -/
noncomputable def pipelineRun (inf : Infile) (cfg : Config) :
    Except String Image :=
  match constructP inf cfg with
  | Except.error e => Except.error e
  | Except.ok p => convertP p

/-- The coordinate map of a constructed projector: the pair `(xs, ys)`
that `convert` would pass to `cv2.remap` for the output pixel at column
`x`, row `y`. -/
noncomputable def coordMapP (p : Projector) (y x : ℤ) : Option (ℝ × ℝ) :=
  match convertDim p.cfg.format p.cfg.radius (p.image.width : ℝ)
      (p.image.height : ℝ) with
  | none => none
  | some dim =>
      mapPoint p.cfg.dtype p.cfg.fov p.xcenter p.ycenter
        (x : ℝ) (y : ℝ) (ofocinvOf dim p.cfg.pfov) dim

/-- Reference mapped radius as the spec words it (section 4.1 step 4):
each projection model has a closed-form lens constant `ifoc` and a
radial formula in `phi`. -/
noncomputable def specRr (model : String) (fov dim phi : ℝ) : Option ℝ :=
  if model = "linear" then
    let ifoc := dim * 180 / (fov * Real.pi)
    some (ifoc * phi)
  else if model = "equalarea" then
    let ifoc := dim / (2 * Real.sin (fov * Real.pi / 720))
    some (ifoc * Real.sin (phi / 2))
  else if model = "orthographic" then
    let ifoc := dim / (2 * Real.sin (fov * Real.pi / 360))
    some (ifoc * Real.sin phi)
  else if model = "stereographic" then
    let ifoc := dim / (2 * Real.tan (fov * Real.pi / 720))
    some (ifoc * Real.tan (phi / 2))
  else none

/-- Reference coordinate map as the spec words it (section 4.1 steps
1-5, for the `rd` nonzero case): `xd = i - x_center`,
`yd = j - y_center`, `rd = hypot(xd, yd)`,
`phi = arctan(ofoc_inv * rd)`, `rr` from the model formula and
`xs = (rr / rd) * xd + x_center`, `ys = (rr / rd) * yd + y_center`. -/
noncomputable def specSourceCoord (model : String)
    (fov xc yc i j ofocinv dim : ℝ) : Option (ℝ × ℝ) :=
  let xd := i - xc
  let yd := j - yc
  let rd := Real.sqrt (xd ^ 2 + yd ^ 2)
  let phi := Real.arctan (ofocinv * rd)
  Option.map (fun rr => (rr / rd * xd + xc, rr / rd * yd + yc))
    (specRr model fov dim phi)

/-- Reference normalization diameter as the spec words it: `fullframe`
takes the diagonal, `circular` the smaller side, and a supplied radius
overrides both with `2 * radius`. -/
noncomputable def specDim (fmt : String) (radius : Option ℝ) (w h : ℝ) :
    Option ℝ :=
  match radius with
  | some r => some (2 * r)
  | none =>
      if fmt = "fullframe" then some (Real.sqrt (w ^ 2 + h ^ 2))
      else if fmt = "circular" then some (min w h)
      else none

/-- Observable events of one `convert` call, in evaluation order. -/
inductive Ev where
  | perPixelRd
  | perPixelPhi
  | errName (localVar : String)
  | remapDone
  deriving DecidableEq, Repr

/-- Whether an event is a raised error. -/
def isErrEv : Ev → Bool
  | Ev.errName _ => true
  | _ => false

/-- Evaluation-order trace of one `convert` call (lines 108-135,
with `_map` inlined at its call site, line 130).  If the format branch
(lines 109-112) left `dim` unbound and no radius rebinds it
(lines 114-115), line 123 raises `NameError` on `dim` before the pixel
grid exists.  Otherwise `_map` computes the per-pixel `rd` (line 77)
and `phiang` (line 78) arrays, and then either the dtype branch bound
`rr` and the remap completes, or line 100 raises `NameError` on the
unbound `rr`. -/
def convertTrace (dtype fmt : String) (radiusSet : Bool) : List Ev :=
  if !validFormat fmt && !radiusSet then [Ev.errName "dim"]
  else
    Ev.perPixelRd :: Ev.perPixelPhi ::
      (if validDtype dtype then [Ev.remapDone] else [Ev.errName "rr"])

/-- The fail-fast discipline the spec asserts: the call raises some
error and no per-pixel quantity (`rd` or `phi`) is ever computed. -/
def failsBeforePixelWork (t : List Ev) : Prop :=
  Ev.perPixelRd ∉ t ∧ Ev.perPixelPhi ∉ t ∧ t.any isErrEv = true

/-- A concrete projector state: a 2 by 2 black working image, optical
center at the origin, a supplied radius, a valid dtype and an
unrecognized format string. -/
noncomputable def sampleProjector : Projector :=
  { image := { height := 2, width := 2, pixel := fun _ _ => 0 }
    xcenter := 0
    ycenter := 0
    cfg := { radius := some 1, dtype := "linear", format := "weird" } }

/-- The crop of `__init__` always yields a square whose side is the
padded minimum rounded down to an even number. -/
theorem workingDims_eq (h w : Nat) :
    workingDims h w = (2 * (min w h / 2), 2 * (min w h / 2)) := by
  unfold workingDims sliceLen cropX0 cropXf cropY0 cropYf
  simp only [Prod.mk.injEq]
  constructor <;> omega

/-- C2, counterexample: a 5 by 5 source with `pad = 0` has padded
minimum 5, yet the working image has side 4, not 5 — the claimed side
length `min(width, height)` fails for odd minima. -/
theorem C2_square_side_counterexample :
    workingOf 5 5 0 = (4, 4) ∧ (workingOf 5 5 0).2 ≠ min 5 5 := by
  decide

/-- C2, amended: for every source image and every pad, the working
image is square, with side equal to the padded minimum rounded down to
an even number, `2 * (min(width, height) / 2)` — equal to the minimum
itself exactly when that minimum is even. -/
theorem C2_working_square_even_side (h w pad : Nat) :
    workingOf h w pad =
      (2 * (min (paddedDims h w pad).2 (paddedDims h w pad).1 / 2),
       2 * (min (paddedDims h w pad).2 (paddedDims h w pad).1 / 2)) := by
  unfold workingOf
  exact workingDims_eq _ _

/-- C4, counterexample: a 4 by 4 source gives a working width of 4, and
the code resolves the default center to `(4 - 1) // 2 = 1`, not the
true fractional center `(4 - 1) / 2 = 1.5`. -/
theorem C4_default_center_counterexample :
    ((defaultCenter (workingOf 4 4 0).2 : ℝ) ≠
      (((workingOf 4 4 0).2 : ℝ) - 1) / 2) := by
  have h : workingOf 4 4 0 = (4, 4) := by decide
  rw [h]
  norm_num [defaultCenter]

/-- C4, amended: the unsupplied optical center defaults to the
integer-truncated value `floor((dim_work - 1) / 2)` — Python floor
division — rather than the exact fractional center. -/
theorem C4_default_center_is_floor (w : Nat) (hw : 1 ≤ w) :
    defaultCenter w = Nat.floor (((w : ℝ) - 1) / 2) := by
  unfold defaultCenter
  have hc : ((w : ℝ) - 1) = ((w - 1 : Nat) : ℝ) := by
    push_cast [hw]
    ring
  rw [hc, show ((w - 1 : Nat) : ℝ) / 2 = ((w - 1 : Nat) : ℝ) / ((2 : Nat) : ℝ)
    by norm_num]
  rw [Nat.floor_div_nat, Nat.floor_natCast]

/-- C4, witness for the amended statement at a working width of 4. -/
theorem C4_default_center_is_floor_witness :
    1 ≤ 4 ∧ defaultCenter 4 = Nat.floor ((((4 : Nat) : ℝ) - 1) / 2) :=
  ⟨by norm_num, C4_default_center_is_floor 4 (by norm_num)⟩

/-- C6, counterexample: with the unrecognized dtype string and the
recognized format, the conversion does not fail before per-pixel work —
the trace computes the per-pixel `rd` and `phi` arrays and only then
raises the unbound-variable error on `rr`. -/
theorem C6_failfast_counterexample :
    validDtype "bogus" = false ∧ validFormat "fullframe" = true ∧
      ¬ failsBeforePixelWork (convertTrace "bogus" "fullframe" false) := by
  simp only [failsBeforePixelWork]
  decide

/-- C6, amended: an unrecognized format with no radius fails before any
per-pixel work, but via a `NameError` on the unbound local `dim`, not a
typed configuration error; an unrecognized dtype is detected only
inside the per-pixel mapping, after the `rd` and `phi` arrays are
computed; a valid dtype with a usable `dim` completes the remap. -/
theorem C6_error_ordering (dtype fmt : String) (radiusSet : Bool) :
    (validFormat fmt = false → radiusSet = false →
      convertTrace dtype fmt radiusSet = [Ev.errName "dim"]) ∧
    (validDtype dtype = false → (validFormat fmt = true ∨ radiusSet = true) →
      convertTrace dtype fmt radiusSet =
        [Ev.perPixelRd, Ev.perPixelPhi, Ev.errName "rr"]) ∧
    (validDtype dtype = true → (validFormat fmt = true ∨ radiusSet = true) →
      convertTrace dtype fmt radiusSet =
        [Ev.perPixelRd, Ev.perPixelPhi, Ev.remapDone]) := by
  unfold convertTrace
  refine ⟨fun h1 h2 => ?_, fun h1 h2 => ?_, fun h1 h2 => ?_⟩
  · simp [h1, h2]
  · rcases h2 with h2 | h2 <;> simp [h1, h2]
  · rcases h2 with h2 | h2 <;> simp [h1, h2]

/-- C6, witness for the amended statement: a bad format with no radius
fails on `dim` with no per-pixel events; a bad dtype with a good format
fails on `rr` only after the per-pixel events. -/
theorem C6_error_ordering_witness :
    convertTrace "bogus" "nope" false = [Ev.errName "dim"] ∧
      convertTrace "bogus" "fullframe" false =
        [Ev.perPixelRd, Ev.perPixelPhi, Ev.errName "rr"] :=
  ⟨(C6_error_ordering "bogus" "nope" false).1 rfl rfl,
   (C6_error_ordering "bogus" "fullframe" false).2.1 rfl (Or.inl rfl)⟩

/-- A valid dtype string is one of the four model names. -/
theorem validDtype_cases (dtype : String) (hd : validDtype dtype = true) :
    dtype = "linear" ∨ dtype = "equalarea" ∨ dtype = "orthographic" ∨
      dtype = "stereographic" := by
  simpa [validDtype, Bool.or_eq_true, decide_eq_true_eq, or_assoc] using hd

/-- C3: the diameter `convert` resolves agrees with the reference rule
for every format string and optional radius (`fullframe` diagonal,
`circular` minimum, radius override to `2 * radius`), and the output
focal length and its inverse follow the stated formulas. -/
theorem C3_dim_and_ofoc_match_spec (fmt : String) (radius : Option ℝ)
    (w h d pfov : ℝ) :
    convertDim fmt radius w h = specDim fmt radius w h ∧
      ofocOf d pfov = d / (2 * Real.tan (pfov * Real.pi / 360)) ∧
      ofocinvOf d pfov = 1 / ofocOf d pfov := by
  refine ⟨?_, rfl, rfl⟩
  unfold convertDim specDim
  cases radius with
  | some r => rfl
  | none =>
      by_cases hc : fmt = "circular"
      · subst hc
        simp
      · by_cases hf : fmt = "fullframe" <;> simp [hc, hf]

/-- C1: for every valid projection model and every output pixel whose
radial distance `rd` from the optical center is nonzero, the per-pixel
map of `_map` equals the reference coordinate definition of the spec. -/
theorem C1_map_matches_spec (dtype : String) (fov xc yc i j ofocinv dim : ℝ)
    (hd : validDtype dtype = true)
    (hrd : Real.sqrt ((i - xc) ^ 2 + (j - yc) ^ 2) ≠ 0) :
    mapPoint dtype fov xc yc i j ofocinv dim =
      specSourceCoord dtype fov xc yc i j ofocinv dim := by
  rcases validDtype_cases dtype hd with h | h | h | h <;> subst h <;>
    simp [mapPoint, specSourceCoord, rrOf, specRr, hypot, hrd]

/-- C1, witness: the linear model at pixel `(1, 0)` with the optical
center at the origin, `ofocinv = 1` and `dim = 2`. -/
theorem C1_map_matches_spec_witness :
    validDtype "linear" = true ∧
      Real.sqrt (((1 : ℝ) - 0) ^ 2 + ((0 : ℝ) - 0) ^ 2) ≠ 0 ∧
      mapPoint "linear" 180 0 0 1 0 1 2 =
        specSourceCoord "linear" 180 0 0 1 0 1 2 := by
  have hs : Real.sqrt (((1 : ℝ) - 0) ^ 2 + ((0 : ℝ) - 0) ^ 2) ≠ 0 := by
    rw [show ((1 : ℝ) - 0) ^ 2 + ((0 : ℝ) - 0) ^ 2 = 1 by norm_num,
      Real.sqrt_one]
    norm_num
  exact ⟨rfl, hs, C1_map_matches_spec "linear" 180 0 0 1 0 1 2 rfl hs⟩

/-- C7: for every valid projection model, the output pixel at the exact
optical center (`rd = 0`) is mapped to the source coordinate `(0, 0)`,
the top-left corner of the working image, not back to the center. -/
theorem C7_center_pixel_maps_to_origin (dtype : String)
    (fov xc yc i j ofocinv dim : ℝ) (hd : validDtype dtype = true)
    (hrd : Real.sqrt ((i - xc) ^ 2 + (j - yc) ^ 2) = 0) :
    mapPoint dtype fov xc yc i j ofocinv dim = some (0, 0) := by
  rcases validDtype_cases dtype hd with h | h | h | h <;> subst h <;>
    simp [mapPoint, rrOf, hypot, hrd]

/-- C7, witness: the equal-area model with the optical center at
`(2, 2)` and the output pixel `(2, 2)` itself. -/
theorem C7_center_pixel_maps_to_origin_witness :
    validDtype "equalarea" = true ∧
      Real.sqrt (((2 : ℝ) - 2) ^ 2 + ((2 : ℝ) - 2) ^ 2) = 0 ∧
      mapPoint "equalarea" 180 2 2 2 2 1 2 = some (0, 0) := by
  have hs : Real.sqrt (((2 : ℝ) - 2) ^ 2 + ((2 : ℝ) - 2) ^ 2) = 0 := by
    rw [show ((2 : ℝ) - 2) ^ 2 + ((2 : ℝ) - 2) ^ 2 = 0 by norm_num]
    exact Real.sqrt_zero
  exact ⟨rfl, hs, C7_center_pixel_maps_to_origin "equalarea" 180 2 2 2 2 1 2
    rfl hs⟩

/-- Cancelling lemma: `d / (2 * s) * s = d / 2` for nonzero `s`. -/
theorem half_of_cancel (d s : ℝ) (hs : s ≠ 0) : d / (2 * s) * s = d / 2 := by
  field_simp
  ring

/-- The linear branch of the dtype chain. -/
theorem rrOf_linear (fov dim phi : ℝ) :
    rrOf "linear" fov dim phi = some (dim * 180 / (fov * Real.pi) * phi) := by
  simp [rrOf]

/-- The equal-area branch of the dtype chain. -/
theorem rrOf_equalarea (fov dim phi : ℝ) :
    rrOf "equalarea" fov dim phi =
      some (dim / (2 * Real.sin (fov * Real.pi / 720)) * Real.sin (phi / 2)) := by
  simp [rrOf]

/-- The orthographic branch of the dtype chain. -/
theorem rrOf_orthographic (fov dim phi : ℝ) :
    rrOf "orthographic" fov dim phi =
      some (dim / (2 * Real.sin (fov * Real.pi / 360)) * Real.sin phi) := by
  simp [rrOf]

/-- The stereographic branch of the dtype chain. -/
theorem rrOf_stereographic (fov dim phi : ℝ) :
    rrOf "stereographic" fov dim phi =
      some (dim / (2 * Real.tan (fov * Real.pi / 720)) * Real.tan (phi / 2)) := by
  simp [rrOf]

/-- C5, counterexample: with `fov = 90`, `pfov = 90` and `dim = 2`
(radius 1), the pixel `(1, 0)` seen from the optical center `(0, 0)`
has `rd = 1` and `phi = arctan(ofocinv * rd) = pi / 4`, which is
nonzero, yet the equal-area and orthographic models produce the same
mapped radius `rr` — the four models are not pairwise distinct at every
nonzero `phi`. -/
theorem C5_distinct_counterexample :
    Real.arctan (ofocinvOf 2 90 * hypot ((1 : ℝ) - 0) ((0 : ℝ) - 0)) ≠ 0 ∧
      rrOf "equalarea" 90 2
          (Real.arctan (ofocinvOf 2 90 * hypot ((1 : ℝ) - 0) ((0 : ℝ) - 0))) =
        rrOf "orthographic" 90 2
          (Real.arctan (ofocinvOf 2 90 * hypot ((1 : ℝ) - 0) ((0 : ℝ) - 0))) := by
  have hhyp : hypot ((1 : ℝ) - 0) ((0 : ℝ) - 0) = 1 := by
    unfold hypot
    rw [show ((1 : ℝ) - 0) ^ 2 + ((0 : ℝ) - 0) ^ 2 = 1 by norm_num]
    exact Real.sqrt_one
  have hfoc : ofocinvOf 2 90 = 1 := by
    unfold ofocinvOf ofocOf
    rw [show (90 : ℝ) * Real.pi / 360 = Real.pi / 4 by ring,
      Real.tan_pi_div_four]
    norm_num
  have hphi : Real.arctan (ofocinvOf 2 90 * hypot ((1 : ℝ) - 0) ((0 : ℝ) - 0)) =
      Real.pi / 4 := by
    rw [hhyp, hfoc, one_mul, Real.arctan_one]
  have hpi := Real.pi_pos
  constructor
  · rw [hphi]
    positivity
  · rw [hphi]
    have h8 : Real.sin (Real.pi / 8) ≠ 0 := by
      refine ne_of_gt (Real.sin_pos_of_pos_of_lt_pi (by positivity) ?_)
      linarith
    have h4 : Real.sin (Real.pi / 4) ≠ 0 := by
      refine ne_of_gt (Real.sin_pos_of_pos_of_lt_pi (by positivity) ?_)
      linarith
    rw [rrOf_equalarea, rrOf_orthographic,
      show (90 : ℝ) * Real.pi / 720 = Real.pi / 8 by ring,
      show (90 : ℝ) * Real.pi / 360 = Real.pi / 4 by ring,
      show Real.pi / 4 / 2 = Real.pi / 8 by ring,
      half_of_cancel _ _ h8, half_of_cancel _ _ h4]

/-- C5, amended: at `phi = 0` all four models yield `rr = 0`; for
nonzero `phi` the four models are not pairwise distinct everywhere —
the normalization makes all four agree at the half-FOV angle
`phi = fov * pi / 360`, where each yields `rr = dim / 2`. -/
theorem C5_rr_zero_and_half_fov_coincidence :
    (∀ (dtype : String) (fov dim : ℝ), validDtype dtype = true →
      rrOf dtype fov dim 0 = some 0) ∧
    ∀ fov dim : ℝ, 0 < fov → fov < 360 →
      rrOf "linear" fov dim (fov * Real.pi / 360) = some (dim / 2) ∧
      rrOf "equalarea" fov dim (fov * Real.pi / 360) = some (dim / 2) ∧
      rrOf "orthographic" fov dim (fov * Real.pi / 360) = some (dim / 2) ∧
      rrOf "stereographic" fov dim (fov * Real.pi / 360) = some (dim / 2) := by
  have hpi := Real.pi_pos
  constructor
  · intro dtype fov dim hd
    rcases validDtype_cases dtype hd with h | h | h | h <;> subst h <;>
      simp [rrOf]
  · intro fov dim h0 h360
    have hs720 : Real.sin (fov * Real.pi / 720) ≠ 0 := by
      refine ne_of_gt (Real.sin_pos_of_pos_of_lt_pi (by positivity) ?_)
      rw [div_lt_iff₀ (by norm_num : (0 : ℝ) < 720)]
      nlinarith
    have hs360 : Real.sin (fov * Real.pi / 360) ≠ 0 := by
      refine ne_of_gt (Real.sin_pos_of_pos_of_lt_pi (by positivity) ?_)
      rw [div_lt_iff₀ (by norm_num : (0 : ℝ) < 360)]
      nlinarith
    have ht720 : Real.tan (fov * Real.pi / 720) ≠ 0 := by
      refine ne_of_gt (Real.tan_pos_of_pos_of_lt_pi_div_two (by positivity) ?_)
      rw [div_lt_div_iff₀ (by norm_num : (0 : ℝ) < 720)
        (by norm_num : (0 : ℝ) < 2)]
      nlinarith
    refine ⟨?_, ?_, ?_, ?_⟩
    · rw [rrOf_linear]
      congr 1
      field_simp
      ring
    · rw [rrOf_equalarea,
        show fov * Real.pi / 360 / 2 = fov * Real.pi / 720 by ring,
        half_of_cancel _ _ hs720]
    · rw [rrOf_orthographic, half_of_cancel _ _ hs360]
    · rw [rrOf_stereographic,
        show fov * Real.pi / 360 / 2 = fov * Real.pi / 720 by ring,
        half_of_cancel _ _ ht720]

/-- C5, witness for the amended statement: the linear model at zero
`phi`, and the half-FOV coincidence at `fov = 90`, `dim = 2`. -/
theorem C5_rr_zero_and_half_fov_coincidence_witness :
    (validDtype "linear" = true ∧ rrOf "linear" 180 2 0 = some 0) ∧
      ((0 : ℝ) < 90 ∧ (90 : ℝ) < 360 ∧
        rrOf "orthographic" 90 2 (90 * Real.pi / 360) = some (2 / 2)) :=
  ⟨⟨rfl, C5_rr_zero_and_half_fov_coincidence.1 "linear" 180 2 rfl⟩,
   ⟨by norm_num, by norm_num,
    (C5_rr_zero_and_half_fov_coincidence.2 90 2 (by norm_num)
      (by norm_num)).2.2.1⟩⟩

/-- C8: two configurations that differ only in `angle` produce the same
coordinate map and the same full-pipeline result on every input — the
angle is stored by `_start_att` but never read by `__init__` geometry,
`_map` or `convert`. -/
theorem C8_angle_never_consumed (img : Image) (cfg : Config) (a b : ℝ) :
    coordMapP (mkProjector img { cfg with angle := a }) =
        coordMapP (mkProjector img { cfg with angle := b }) ∧
      ∀ inf : Infile,
        pipelineRun inf { cfg with angle := a } =
          pipelineRun inf { cfg with angle := b } := by
  refine ⟨rfl, fun inf => ?_⟩
  cases inf <;> rfl

/-- Whatever `convert` does, its possible errors are the two unbound
locals, never the invalid-input message of `__init__`. -/
theorem convertP_ne_badInput (q : Projector) :
    convertP q ≠ Except.error "Image format not recognized" := by
  unfold convertP
  cases convertDim q.cfg.format q.cfg.radius (q.image.width : ℝ)
      (q.image.height : ℝ) with
  | none => simp
  | some dim => by_cases hv : validDtype q.cfg.dtype = true <;> simp [hv]

/-- C9: a non-string, non-array input fails construction (and hence the
whole pipeline) with the invalid-input error and nothing else runs,
while string and array inputs always construct successfully and never
produce that error later in the pipeline. -/
theorem C9_input_recognition (cfg : Config) :
    constructP Infile.other cfg = Except.error "Image format not recognized" ∧
      pipelineRun Infile.other cfg =
        Except.error "Image format not recognized" ∧
      (∀ img : Image, (constructP (Infile.pathStr img) cfg).isOk = true ∧
        (constructP (Infile.array img) cfg).isOk = true) ∧
      ∀ img : Image,
        pipelineRun (Infile.pathStr img) cfg ≠
            Except.error "Image format not recognized" ∧
          pipelineRun (Infile.array img) cfg ≠
            Except.error "Image format not recognized" := by
  exact ⟨rfl, rfl, fun img => ⟨rfl, rfl⟩,
    fun img => ⟨convertP_ne_badInput (mkProjector img cfg),
      convertP_ne_badInput (mkProjector img cfg)⟩⟩

/-- C9, witness: the default configuration with a rejected input and
with the sample working image as an array input. -/
theorem C9_input_recognition_witness :
    constructP Infile.other {} = Except.error "Image format not recognized" ∧
      (constructP (Infile.array sampleProjector.image) {}).isOk = true :=
  ⟨(C9_input_recognition {}).1,
   ((C9_input_recognition {}).2.2.1 sampleProjector.image).2⟩

/-- C10: whenever a radius is supplied and the dtype is one of the four
models, `convert` completes without raising for every format string —
including unrecognized ones — because the radius override rebinds `dim`
after the format branch, so the bad format is never detected. -/
theorem C10_radius_bypasses_format_detection (p : Projector) (r : ℝ)
    (hr : p.cfg.radius = some r) (hd : validDtype p.cfg.dtype = true) :
    (convertP p).isOk = true := by
  unfold convertP
  rw [show convertDim p.cfg.format p.cfg.radius (p.image.width : ℝ)
      (p.image.height : ℝ) = some (2 * r) by
    unfold convertDim
    rw [hr]]
  simp [hd, Except.isOk, Except.toBool]

/-- C10, witness: a projector with radius 1, the linear dtype and an
unrecognized format string converts successfully. -/
theorem C10_radius_bypasses_format_detection_witness :
    sampleProjector.cfg.radius = some 1 ∧
      validDtype sampleProjector.cfg.dtype = true ∧
      (convertP sampleProjector).isOk = true :=
  ⟨rfl, rfl, C10_radius_bypasses_format_detection sampleProjector 1 rfl rfl⟩

end Defisheye

